import Mathlib

/-!
Shallow embedding of `CycloidCalculator.py`, a cycloidal-drive design
calculator.  Numeric values (Python floats) are modelled as exact rationals.
Raw GUI text fields are modelled as `String`, and Python's numeric
conversions `float(...)` / `int(...)` are modelled on their plain decimal
fragment (`pyFloat` / `pyInt`, returning `none` where the conversion raises
`ValueError`).  The mutable tkinter variables are gathered into one record
`GuiState`; each event handler becomes a function `GuiState → GuiState`.
-/

namespace Cycloid

/-- Numeric value of a list of decimal digit characters, most significant
first (the usual left fold, e.g. the digits of "150" give 150). -/
def natOfDigits (ds : List Char) : Nat :=
  ds.foldl (fun n c => 10 * n + (c.toNat - 48)) 0

/-- Models Python `float(s)` on its plain decimal fragment: an optional
sign followed by `digits`, `digits.digits`, `digits.` or `.digits`.
Returns `none` where Python raises `ValueError` (empty string, stray
characters, a bare `.` and so on).  Exponent forms, `inf`/`nan`,
underscores and surrounding whitespace are outside the modelled fragment. -/
def pyFloat (s : String) : Option ℚ :=
  let cs := s.toList
  let signed : ℚ × List Char :=
    match cs with
    | '-' :: rest => (-1, rest)
    | '+' :: rest => (1, rest)
    | _ => (1, cs)
  let intPart := signed.2.takeWhile Char.isDigit
  let rest := signed.2.dropWhile Char.isDigit
  match rest with
  | [] =>
    if intPart.isEmpty then none
    else some (signed.1 * (natOfDigits intPart : ℚ))
  | '.' :: frac =>
    if frac.all Char.isDigit && !(intPart.isEmpty && frac.isEmpty) then
      some (signed.1 *
        ((natOfDigits intPart : ℚ) + (natOfDigits frac : ℚ) / 10 ^ frac.length))
    else none
  | _ => none

/-- Models Python `int(s)` on its plain decimal fragment: an optional sign
followed by at least one digit.  Returns `none` where Python raises
`ValueError`. -/
def pyInt (s : String) : Option ℤ :=
  let signed : ℤ × List Char :=
    match s.toList with
    | '-' :: rest => (-1, rest)
    | '+' :: rest => (1, rest)
    | _ => (1, s.toList)
  if !signed.2.isEmpty && signed.2.all Char.isDigit then
    some (signed.1 * (natOfDigits signed.2 : ℤ))
  else none

/-- Floor of a rational, computed directly on numerator and denominator so
that concrete instances evaluate in the kernel. -/
def ratFloor (q : ℚ) : ℤ := Int.fdiv q.num q.den

/-- Round to the nearest integer, ties to even — the rounding used by
Python's fixed-point formatting. -/
def roundHalfEven (q : ℚ) : ℤ :=
  let f := ratFloor q
  let r := q - f
  if r < 1 / 2 then f
  else if 1 / 2 < r then f + 1
  else if f % 2 = 0 then f else f + 1

/-- Left-pad a string with `'0'` to the given length. -/
def padZeros (s : String) (len : Nat) : String :=
  String.mk (List.replicate (len - s.length) '0') ++ s

/-- Fixed-point decimal rendering of a rational with `d` digits after the
point, rounding ties to even. -/
def ratToFixed (q : ℚ) (d : Nat) : String :=
  let n := roundHalfEven (q * 10 ^ d)
  let sign := if n < 0 then "-" else ""
  let m := n.natAbs
  if d = 0 then sign ++ toString m
  else sign ++ toString (m / 10 ^ d) ++ "." ++ padZeros (toString (m % 10 ^ d)) d

/-- Models the f-string formatting `f"{x:.3f}"` used for the three computed
outputs: fixed-point with exactly three digits after the decimal point. -/
def formatFixed3 (q : ℚ) : String := ratToFixed q 3

/-- Smallest number of decimal digits (starting from `d`, with the given
fuel) after which `q` is represented exactly. -/
def firstExactDecimals (q : ℚ) : Nat → Nat → Nat
  | d, 0 => d
  | d, fuel + 1 =>
    if (q * 10 ^ d).den = 1 then d else firstExactDecimals q (d + 1) fuel

/-- Models Python `str(x)` on a float holding a short decimal value: the
shortest decimal expansion, with at least one digit after the point
(`str(6.0) = "6.0"`, `str(6.15) = "6.15"`). -/
def pyStr (q : ℚ) : String :=
  ratToFixed q (max 1 (firstExactDecimals q 0 17))

/-- One bearing record as built by `load_bearings`: `PartNumber` stays a
string, `ID`, `OD` and `Thickness` are converted to numbers. -/
structure Bearing where
  PartNumber : String
  ID : ℚ
  OD : ℚ
  Thickness : ℚ
deriving DecidableEq, Repr

/-- One raw CSV data row as produced by `csv.DictReader`: the four column
values of interest, still as text. -/
structure CsvRow where
  PartNumber : String
  ID : String
  OD : String
  Thickness : String
deriving DecidableEq, Repr

/-- Conversion of one CSV row inside the `load_bearings` loop:
`float(row['ID'])`, `float(row['OD'])`, `float(row['Thickness'])`; a
`ValueError` (here `none`) propagates out of the whole load. -/
def parseCsvRow (row : CsvRow) : Option Bearing :=
  match pyFloat row.ID, pyFloat row.OD, pyFloat row.Thickness with
  | some id, some od, some th =>
    some { PartNumber := row.PartNumber, ID := id, OD := od, Thickness := th }
  | _, _, _ => none

/-- The row loop of `load_bearings`: append each converted row; an
unparseable numeric field aborts the whole load (exception propagation),
so no partial list is returned. -/
def loadRows : List CsvRow → Option (List Bearing)
  | [] => some []
  | row :: rest =>
    match parseCsvRow row with
    | none => none
    | some b =>
      match loadRows rest with
      | none => none
      | some bs => some (b :: bs)

/-- `load_bearings(csv_filename)`.  The file system is abstracted as
`Option (List CsvRow)`: `none` when `os.path.isfile` is false (the function
then returns the empty list), `some rows` for the parsed CSV body.
`none` as a result models the uncaught `ValueError` of a bad numeric
field. -/
def load_bearings (file : Option (List CsvRow)) : Option (List Bearing) :=
  match file with
  | none => some []
  | some rows => loadRows rows

/-- The match test inside `find_bearing_by_ID`:
`abs(bearing['ID'] - inner_diameter) < 1e-6`. -/
def bearingMatches (inner_diameter : ℚ) (bearing : Bearing) : Bool :=
  decide (|bearing.ID - inner_diameter| < (1e-6 : ℚ))

/-- `find_bearing_by_ID(bearings_data, inner_diameter)`: linear scan,
first record whose `ID` is within `1e-6` of the requested inner diameter,
else `None`. -/
def find_bearing_by_ID (bearings_data : List Bearing) (inner_diameter : ℚ) :
    Option Bearing :=
  bearings_data.find? (bearingMatches inner_diameter)

/-- The mutable GUI state: the raw text of every input entry and of every
derived/display variable.  `shaft_diameter_var` and
`roller_base_diameter_var` are the text variables backing
`entry_shaft_diameter` and `entry_roller_base_diameter`, so the handlers
read the same strings the variables hold. -/
structure GuiState where
  shaft_diameter_var : String
  entry_num_drive_rollers : String
  entry_drive_roller_diameter : String
  entry_drive_roller_base_thickness : String
  roller_base_diameter_var : String
  entry_ring_pin_diameter : String
  entry_cycloidal_pin_diameter : String
  entry_cycloidal_pin_height : String
  entry_tolerance : String
  entry_cycloidal_disc_thickness : String
  bearing_thickness_var : String
  bearing_od_var : String
  part_number_shaft_var : String
  roller_base_bearing_thickness_var : String
  roller_base_bearing_od_var : String
  part_number_roller_base_var : String
  cycloidal_disc_id_var : String
  hole_drive_roller_var : String
  hole_cycloidal_pin_var : String
  eccentricity_var : String
deriving DecidableEq, Repr

/-- `on_shaft_diameter_change`: parse the shaft-diameter entry (silent
return on `ValueError`), look the value up in the catalog, and on a match
populate the shaft-bearing fields and the cycloidal-disc inner diameter. -/
def on_shaft_diameter_change (bearings_list : List Bearing) (s : GuiState) :
    GuiState :=
  match pyFloat s.shaft_diameter_var with
  | none => s
  | some sd =>
    match find_bearing_by_ID bearings_list sd with
    | none => s
    | some found_bearing =>
      { s with
        bearing_thickness_var := pyStr found_bearing.Thickness
        bearing_od_var := pyStr found_bearing.OD
        part_number_shaft_var := found_bearing.PartNumber
        cycloidal_disc_id_var := pyStr found_bearing.OD }

/-- `on_roller_base_diameter_change`: symmetric handler for the
roller-base diameter entry, populating the roller-base-bearing fields. -/
def on_roller_base_diameter_change (bearings_list : List Bearing)
    (s : GuiState) : GuiState :=
  match pyFloat s.roller_base_diameter_var with
  | none => s
  | some rbd =>
    match find_bearing_by_ID bearings_list rbd with
    | none => s
    | some found_bearing =>
      { s with
        roller_base_bearing_thickness_var := pyStr found_bearing.Thickness
        roller_base_bearing_od_var := pyStr found_bearing.OD
        part_number_roller_base_var := found_bearing.PartNumber }

/-- The eleven local variables bound inside the `try` block of
`calculate_cycloidal_params`, in source order. -/
structure ParsedInputs where
  shaft_diam : ℚ
  num_drive_rollers : ℤ
  drive_roller_diam : ℚ
  drive_roller_base_thickness : ℚ
  roller_base_diam : ℚ
  ring_pin_diam : ℚ
  cycloidal_pin_diam : ℚ
  cycloidal_pin_height : ℚ
  tolerance_val : ℚ
  cycloidal_disc_id : ℚ
  cycloidal_disc_thickness : ℚ
deriving DecidableEq, Repr

/-- The `try` block of `calculate_cycloidal_params`: every one of the
eleven conversions, in source order, must succeed; the first `ValueError`
makes the whole function return immediately (here: `none`).  The
conversions have no side effects, so checking them simultaneously is
equivalent to the source's abort-on-first-failure. -/
def parse_all_inputs (s : GuiState) : Option ParsedInputs :=
  match pyFloat s.shaft_diameter_var, pyInt s.entry_num_drive_rollers,
      pyFloat s.entry_drive_roller_diameter,
      pyFloat s.entry_drive_roller_base_thickness,
      pyFloat s.roller_base_diameter_var, pyFloat s.entry_ring_pin_diameter,
      pyFloat s.entry_cycloidal_pin_diameter,
      pyFloat s.entry_cycloidal_pin_height, pyFloat s.entry_tolerance,
      pyFloat s.cycloidal_disc_id_var,
      pyFloat s.entry_cycloidal_disc_thickness with
  | some shaft_diam, some num_drive_rollers, some drive_roller_diam,
      some drive_roller_base_thickness, some roller_base_diam,
      some ring_pin_diam, some cycloidal_pin_diam, some cycloidal_pin_height,
      some tolerance_val, some cycloidal_disc_id,
      some cycloidal_disc_thickness =>
    some { shaft_diam, num_drive_rollers, drive_roller_diam,
           drive_roller_base_thickness, roller_base_diam, ring_pin_diam,
           cycloidal_pin_diam, cycloidal_pin_height, tolerance_val,
           cycloidal_disc_id, cycloidal_disc_thickness }
  | _, _, _, _, _, _, _, _, _, _, _ => none

/-- `calculate_cycloidal_params`: silently abort unless all eleven inputs
convert, then set the two hole diameters and the eccentricity, each
formatted with `f"{...:.3f}"`. -/
def calculate_cycloidal_params (s : GuiState) : GuiState :=
  match parse_all_inputs s with
  | none => s
  | some p =>
    let drive_roller_hole_diam := p.drive_roller_diam + 0.2 - p.tolerance_val
    let cycloidal_pin_hole_diam := p.cycloidal_pin_diam + 0.2 - p.tolerance_val
    let eccentricity_value := (p.ring_pin_diam - p.cycloidal_pin_diam) / 2
    { s with
      hole_drive_roller_var := formatFixed3 drive_roller_hole_diam
      hole_cycloidal_pin_var := formatFixed3 cycloidal_pin_hole_diam
      eccentricity_var := formatFixed3 eccentricity_value }

/-- A two-row sample catalog used by the concrete instances below; the
first row is the worked example of the specification
(`PartNumber=B1, ID=10.0, OD=22.0, Thickness=6.0`). -/
def sampleCatalog : List Bearing :=
  [{ PartNumber := "B1", ID := 10, OD := 22, Thickness := 6 },
   { PartNumber := "B2", ID := 12, OD := 28, Thickness := 8 }]

/-- A fully populated GUI state whose eleven required inputs all parse,
matching the specification's worked examples (drive-roller diameter 6.0
with tolerance 0.05, ring-pin diameter 8.0 with cycloidal-pin diameter
6.0). -/
def goodState : GuiState where
  shaft_diameter_var := "10.0"
  entry_num_drive_rollers := "6"
  entry_drive_roller_diameter := "6.0"
  entry_drive_roller_base_thickness := "3.0"
  roller_base_diameter_var := "12.0"
  entry_ring_pin_diameter := "8.0"
  entry_cycloidal_pin_diameter := "6.0"
  entry_cycloidal_pin_height := "7.0"
  entry_tolerance := "0.05"
  entry_cycloidal_disc_thickness := "5.0"
  bearing_thickness_var := "6.0"
  bearing_od_var := "22.0"
  part_number_shaft_var := "B1"
  roller_base_bearing_thickness_var := "8.0"
  roller_base_bearing_od_var := "28.0"
  part_number_roller_base_var := "B2"
  cycloidal_disc_id_var := "22.0"
  hole_drive_roller_var := ""
  hole_cycloidal_pin_var := ""
  eccentricity_var := ""

/-- The eleven parsed values of `goodState`. -/
def goodParsed : ParsedInputs where
  shaft_diam := 10
  num_drive_rollers := 6
  drive_roller_diam := 6
  drive_roller_base_thickness := 3
  roller_base_diam := 12
  ring_pin_diam := 8
  cycloidal_pin_diam := 6
  cycloidal_pin_height := 7
  tolerance_val := 0.05
  cycloidal_disc_id := 22
  cycloidal_disc_thickness := 5

/-- `goodState` with one required field (the ring-pin diameter) made
non-numeric. -/
def badState : GuiState :=
  { goodState with entry_ring_pin_diameter := "abc" }

/-- `goodState` with a non-numeric shaft diameter; its roller-base
diameter `"12.0"` still matches record `B2` of `sampleCatalog`. -/
def shaftInvalidState : GuiState :=
  { goodState with shaft_diameter_var := "abc" }

/-- `goodState` with a roller-base diameter that parses but matches no
record of `sampleCatalog`; its shaft diameter `"10.0"` still matches
record `B1`. -/
def rollerMissState : GuiState :=
  { goodState with roller_base_diameter_var := "99.0" }

/-- `goodState` with only the four dead inputs (drive-roller count,
drive-roller base thickness, cycloidal-pin height, cycloidal-disc
thickness) changed. -/
def deadVariantState : GuiState :=
  { goodState with
    entry_num_drive_rollers := "9"
    entry_drive_roller_base_thickness := "4.5"
    entry_cycloidal_pin_height := "2.0"
    entry_cycloidal_disc_thickness := "6.5" }

/-- The eleven parsed values of `deadVariantState`. -/
def deadVariantParsed : ParsedInputs :=
  { goodParsed with
    num_drive_rollers := 9
    drive_roller_base_thickness := 4.5
    cycloidal_pin_height := 2
    cycloidal_disc_thickness := 6.5 }

/-- `goodState` with every required input changed except the four the
formulas consume (drive-roller diameter, ring-pin diameter, cycloidal-pin
diameter, tolerance). -/
def unusedVariantState : GuiState :=
  { goodState with
    shaft_diameter_var := "12.0"
    entry_num_drive_rollers := "3"
    entry_drive_roller_base_thickness := "9.0"
    roller_base_diameter_var := "10.0"
    entry_cycloidal_pin_height := "1.0"
    cycloidal_disc_id_var := "28.0"
    entry_cycloidal_disc_thickness := "2.0" }

/-- The eleven parsed values of `unusedVariantState`. -/
def unusedVariantParsed : ParsedInputs :=
  { goodParsed with
    shaft_diam := 12
    num_drive_rollers := 3
    drive_roller_base_thickness := 9
    roller_base_diam := 10
    cycloidal_pin_height := 1
    cycloidal_disc_id := 28
    cycloidal_disc_thickness := 2 }

/-- A CSV body whose second row has a non-numeric `ID` field. -/
def badRows : List CsvRow :=
  [{ PartNumber := "B1", ID := "10.0", OD := "22.0", Thickness := "6.0" },
   { PartNumber := "B3", ID := "x", OD := "22.0", Thickness := "6.0" }]

attribute [local semireducible] Rat.add Rat.sub Rat.mul Rat.inv Rat.ofScientific

/-- Success of the validation gate determines every one of the eleven
conversions: if `parse_all_inputs` returns `some p`, each raw field parses
to the corresponding component of `p`. -/
theorem parse_all_inputs_fields {s : GuiState} {p : ParsedInputs}
    (hp : parse_all_inputs s = some p) :
    pyFloat s.shaft_diameter_var = some p.shaft_diam ∧
    pyInt s.entry_num_drive_rollers = some p.num_drive_rollers ∧
    pyFloat s.entry_drive_roller_diameter = some p.drive_roller_diam ∧
    pyFloat s.entry_drive_roller_base_thickness
      = some p.drive_roller_base_thickness ∧
    pyFloat s.roller_base_diameter_var = some p.roller_base_diam ∧
    pyFloat s.entry_ring_pin_diameter = some p.ring_pin_diam ∧
    pyFloat s.entry_cycloidal_pin_diameter = some p.cycloidal_pin_diam ∧
    pyFloat s.entry_cycloidal_pin_height = some p.cycloidal_pin_height ∧
    pyFloat s.entry_tolerance = some p.tolerance_val ∧
    pyFloat s.cycloidal_disc_id_var = some p.cycloidal_disc_id ∧
    pyFloat s.entry_cycloidal_disc_thickness
      = some p.cycloidal_disc_thickness := by
  unfold parse_all_inputs at hp
  split at hp
  · rename_i a1 a2 a3 a4 a5 a6 a7 a8 a9 a10 a11
      h1 h2 h3 h4 h5 h6 h7 h8 h9 h10 h11
    cases hp
    exact ⟨h1, h2, h3, h4, h5, h6, h7, h8, h9, h10, h11⟩
  · cases hp

/-- A row whose `ID`, `OD` or `Thickness` field does not parse fails to
convert. -/
theorem parseCsvRow_eq_none {row : CsvRow}
    (h : pyFloat row.ID = none ∨ pyFloat row.OD = none ∨
      pyFloat row.Thickness = none) :
    parseCsvRow row = none := by
  unfold parseCsvRow
  rcases h with hb | hb | hb
  · simp [hb]
  · cases hID : pyFloat row.ID <;> simp [hID, hb]
  · cases hID : pyFloat row.ID <;> cases hOD : pyFloat row.OD <;>
      simp [hID, hOD, hb]

/-- A single unconvertible row poisons the whole row loop. -/
theorem loadRows_eq_none {row : CsvRow} (hrow : parseCsvRow row = none) :
    ∀ rows : List CsvRow, row ∈ rows → loadRows rows = none := by
  intro rows
  induction rows with
  | nil => intro hmem; cases hmem
  | cons r rest ih =>
    intro hmem
    rcases List.mem_cons.1 hmem with rfl | hmem2
    · simp [loadRows, hrow]
    · cases hr : parseCsvRow r
      · simp [loadRows, hr]
      · simp [loadRows, hr, ih hmem2]

/-- The linear scan returns the first match: any result splits the catalog
into a prefix of non-matching records, the result, and a suffix. -/
theorem find_bearing_by_ID_first (v : ℚ) :
    ∀ (bs : List Bearing) (b : Bearing), find_bearing_by_ID bs v = some b →
      ∃ l1 l2, bs = l1 ++ b :: l2 ∧ ∀ x ∈ l1, bearingMatches v x = false := by
  intro bs
  induction bs with
  | nil => intro b h; simp [find_bearing_by_ID] at h
  | cons r rest ih =>
    intro b h
    rw [find_bearing_by_ID] at h
    cases hr : bearingMatches v r
    · rw [List.find?_cons_of_neg _ (by simp [hr])] at h
      obtain ⟨l1, l2, heq, hall⟩ := ih b h
      refine ⟨r :: l1, l2, by rw [heq]; rfl, ?_⟩
      intro x hx
      rcases List.mem_cons.1 hx with rfl | hx2
      · exact hr
      · exact hall x hx2
    · rw [List.find?_cons_of_pos _ hr] at h
      cases h
      exact ⟨[], rest, rfl, by simp⟩

/-- C7: for every catalog source that exists, if any row has a non-numeric
`ID`, `OD` or `Thickness` field then the whole load fails with a parse
error and no partial catalog of the preceding good rows is returned. -/
theorem load_bearings_strict (rows : List CsvRow)
    (h : ∃ row ∈ rows, pyFloat row.ID = none ∨ pyFloat row.OD = none ∨
      pyFloat row.Thickness = none) :
    load_bearings (some rows) = none := by
  obtain ⟨row, hmem, hbad⟩ := h
  show loadRows rows = none
  exact loadRows_eq_none (parseCsvRow_eq_none hbad) rows hmem

/-- Witness for C7: a catalog whose second row has the non-numeric `ID`
field `"x"` fails to load entirely, despite the good first row. -/
theorem load_bearings_strict_witness : load_bearings (some badRows) = none :=
  load_bearings_strict badRows
    ⟨{ PartNumber := "B3", ID := "x", OD := "22.0", Thickness := "6.0" },
      by decide, Or.inl (by decide)⟩

/-- C8: a catalog source that does not exist loads as the empty sequence of
records, not as an error. -/
theorem load_bearings_missing_source : load_bearings none = some [] := rfl

/-- C3: the lookup scans the catalog linearly and returns the first record
whose `ID` is within an absolute tolerance of `1e-6` of the requested
value (ties by catalog order); it returns `none` exactly when no record is
within `1e-6`; and looking up the `ID` of any catalog record returns a
record whose `ID` is within `1e-6` of it. -/
theorem find_bearing_by_ID_spec (bs : List Bearing) (v : ℚ) :
    (∀ b, find_bearing_by_ID bs v = some b →
      |b.ID - v| < 1e-6 ∧
        ∃ l1 l2, bs = l1 ++ b :: l2 ∧ ∀ x ∈ l1, ¬(|x.ID - v| < 1e-6)) ∧
    (find_bearing_by_ID bs v = none ↔ ∀ b ∈ bs, ¬(|b.ID - v| < 1e-6)) ∧
    (∀ R ∈ bs, ∃ b, find_bearing_by_ID bs R.ID = some b ∧
      |b.ID - R.ID| < 1e-6) := by
  refine ⟨?_, ?_, ?_⟩
  · intro b hb
    have hmatch := List.find?_some hb
    rw [bearingMatches, decide_eq_true_eq] at hmatch
    refine ⟨hmatch, ?_⟩
    obtain ⟨l1, l2, heq, hall⟩ := find_bearing_by_ID_first v bs b hb
    refine ⟨l1, l2, heq, ?_⟩
    intro x hx
    have := hall x hx
    rwa [bearingMatches, decide_eq_false_iff_not] at this
  · simp only [find_bearing_by_ID, List.find?_eq_none, bearingMatches,
      decide_eq_true_eq]
  · intro R hR
    have hsome : (bs.find? (bearingMatches R.ID)).isSome := by
      rw [List.find?_isSome]
      refine ⟨R, hR, ?_⟩
      rw [bearingMatches, sub_self, abs_zero]
      decide
    obtain ⟨b, hb⟩ := Option.isSome_iff_exists.1 hsome
    refine ⟨b, hb, ?_⟩
    have := List.find?_some hb
    rwa [bearingMatches, decide_eq_true_eq] at this

/-- Witness for C3: in the sample catalog, looking up the inner diameter
of its first record succeeds and returns a record within `1e-6`. -/
theorem find_bearing_by_ID_spec_witness :
    ∃ b, find_bearing_by_ID sampleCatalog (10 : ℚ) = some b ∧
      |b.ID - (10 : ℚ)| < 1e-6 :=
  (find_bearing_by_ID_spec sampleCatalog 10).2.2
    { PartNumber := "B1", ID := 10, OD := 22, Thickness := 6 } (by decide)

/-- C4: each change-triggered derivation, taken on its own, is a sticky
no-op when its raw text does not parse or when it parses but matches no
catalog record within the `1e-6` tolerance: the whole prior state,
including every previously derived value, is returned unchanged and no
error is surfaced.  Each conjunct carries only the hypothesis about its
own input field, so the other field may parse and match freely. -/
theorem change_handlers_noop (bs : List Bearing) (s : GuiState) :
    ((∀ sd, pyFloat s.shaft_diameter_var = some sd →
        find_bearing_by_ID bs sd = none) →
      on_shaft_diameter_change bs s = s) ∧
    ((∀ rbd, pyFloat s.roller_base_diameter_var = some rbd →
        find_bearing_by_ID bs rbd = none) →
      on_roller_base_diameter_change bs s = s) := by
  constructor
  · intro h1
    rw [on_shaft_diameter_change]
    cases hsd : pyFloat s.shaft_diameter_var with
    | none => rfl
    | some sd => simp [h1 sd hsd]
  · intro h2
    rw [on_roller_base_diameter_change]
    cases hrbd : pyFloat s.roller_base_diameter_var with
    | none => rfl
    | some rbd => simp [h2 rbd hrbd]

/-- Witness for C4: the shaft handler leaves a state with a non-numeric
shaft diameter untouched even though that state's roller-base diameter
matches record `B2`; the roller-base handler leaves a state whose
roller-base diameter matches no record untouched even though that state's
shaft diameter matches record `B1`. -/
theorem change_handlers_noop_witness :
    on_shaft_diameter_change sampleCatalog shaftInvalidState
        = shaftInvalidState ∧
      on_roller_base_diameter_change sampleCatalog rollerMissState
        = rollerMissState := by
  constructor
  · refine (change_handlers_noop sampleCatalog shaftInvalidState).1 ?_
    intro sd hsd
    rw [show pyFloat shaftInvalidState.shaft_diameter_var = none from
      by decide] at hsd
    cases hsd
  · refine (change_handlers_noop sampleCatalog rollerMissState).2 ?_
    intro rbd hrbd
    rw [show pyFloat rollerMissState.roller_base_diameter_var = some 99 from
      by decide] at hrbd
    cases hrbd
    decide

/-- C5: whenever the shaft-diameter text parses and matches a catalog
record, the handler copies the record's `Thickness`, `OD` and `PartNumber`
verbatim into the shaft-bearing fields and sets the cycloidal-disc inner
diameter to the record's `OD`. -/
theorem on_shaft_diameter_change_match (bs : List Bearing) (s : GuiState)
    (sd : ℚ) (b : Bearing)
    (hsd : pyFloat s.shaft_diameter_var = some sd)
    (hb : find_bearing_by_ID bs sd = some b) :
    (on_shaft_diameter_change bs s).bearing_thickness_var
        = pyStr b.Thickness ∧
    (on_shaft_diameter_change bs s).bearing_od_var = pyStr b.OD ∧
    (on_shaft_diameter_change bs s).part_number_shaft_var = b.PartNumber ∧
    (on_shaft_diameter_change bs s).cycloidal_disc_id_var = pyStr b.OD := by
  simp [on_shaft_diameter_change, hsd, hb]

/-- Witness for C5: the specification's worked example — catalog row
`B1, ID=10.0, OD=22.0, Thickness=6.0` and input `"10.0"` yield
`"6.0"`, `"22.0"`, `"B1"` and `"22.0"`. -/
theorem on_shaft_diameter_change_match_witness :
    (on_shaft_diameter_change sampleCatalog goodState).bearing_thickness_var
        = "6.0" ∧
    (on_shaft_diameter_change sampleCatalog goodState).bearing_od_var
        = "22.0" ∧
    (on_shaft_diameter_change sampleCatalog goodState).part_number_shaft_var
        = "B1" ∧
    (on_shaft_diameter_change sampleCatalog goodState).cycloidal_disc_id_var
        = "22.0" := by
  have h := on_shaft_diameter_change_match sampleCatalog goodState 10
    { PartNumber := "B1", ID := 10, OD := 22, Thickness := 6 }
    (by decide) (by decide)
  exact ⟨h.1.trans (by decide), h.2.1.trans (by decide), h.2.2.1,
    h.2.2.2.trans (by decide)⟩

/-- C1: if any one of the eleven required fields fails to parse as its
required numeric type, the full calculation is aborted silently: the state
after the call equals the state before, so none of the three outputs is
changed and no partial result or error is produced. -/
theorem calculate_aborts_on_parse_failure (s : GuiState)
    (h : pyFloat s.shaft_diameter_var = none ∨
      pyInt s.entry_num_drive_rollers = none ∨
      pyFloat s.entry_drive_roller_diameter = none ∨
      pyFloat s.entry_drive_roller_base_thickness = none ∨
      pyFloat s.roller_base_diameter_var = none ∨
      pyFloat s.entry_ring_pin_diameter = none ∨
      pyFloat s.entry_cycloidal_pin_diameter = none ∨
      pyFloat s.entry_cycloidal_pin_height = none ∨
      pyFloat s.entry_tolerance = none ∨
      pyFloat s.cycloidal_disc_id_var = none ∨
      pyFloat s.entry_cycloidal_disc_thickness = none) :
    calculate_cycloidal_params s = s := by
  rw [calculate_cycloidal_params]
  cases hp : parse_all_inputs s with
  | none => rfl
  | some p =>
    exfalso
    have hf := parse_all_inputs_fields hp
    obtain ⟨e1, e2, e3, e4, e5, e6, e7, e8, e9, e10, e11⟩ := hf
    rcases h with h | h | h | h | h | h | h | h | h | h | h <;> simp_all

/-- Witness for C1: a state whose ring-pin diameter field reads `"abc"`
is returned completely unchanged by the full calculation. -/
theorem calculate_aborts_on_parse_failure_witness :
    calculate_cycloidal_params badState = badState :=
  calculate_aborts_on_parse_failure badState
    (Or.inr (Or.inr (Or.inr (Or.inr (Or.inr (Or.inl (by decide)))))))

/-- C2: whenever all eleven required fields parse, the calculation stores
`DriveRollerDiameter + 0.2 - Tolerance`,
`CycloidalPinDiameter + 0.2 - Tolerance` and
`(RingPinDiameter - CycloidalPinDiameter) / 2` in the three output fields,
each rendered in fixed-point with exactly three decimal places; in
particular drive-roller diameter `6.0` with tolerance `0.05` renders as
`"6.150"` and ring-pin `8.0` with cycloidal-pin `6.0` gives eccentricity
`"1.000"`. -/
theorem calculate_success_formulas (s : GuiState) (p : ParsedInputs)
    (hp : parse_all_inputs s = some p) :
    (calculate_cycloidal_params s).hole_drive_roller_var
        = formatFixed3 (p.drive_roller_diam + 0.2 - p.tolerance_val) ∧
    (calculate_cycloidal_params s).hole_cycloidal_pin_var
        = formatFixed3 (p.cycloidal_pin_diam + 0.2 - p.tolerance_val) ∧
    (calculate_cycloidal_params s).eccentricity_var
        = formatFixed3 ((p.ring_pin_diam - p.cycloidal_pin_diam) / 2) ∧
    formatFixed3 ((6 : ℚ) + 0.2 - 0.05) = "6.150" ∧
    formatFixed3 (((8 : ℚ) - 6) / 2) = "1.000" := by
  refine ⟨?_, ?_, ?_, by decide, by decide⟩ <;>
    simp [calculate_cycloidal_params, hp]

/-- Witness for C2: on a concrete state with drive-roller diameter `6.0`,
tolerance `0.05`, ring-pin `8.0` and cycloidal-pin `6.0`, the stored
outputs are the strings `"6.150"`, `"6.150"` and `"1.000"`. -/
theorem calculate_success_formulas_witness :
    (calculate_cycloidal_params goodState).hole_drive_roller_var
        = "6.150" ∧
    (calculate_cycloidal_params goodState).hole_cycloidal_pin_var
        = "6.150" ∧
    (calculate_cycloidal_params goodState).eccentricity_var = "1.000" := by
  have h := calculate_success_formulas goodState goodParsed (by decide)
  exact ⟨h.1.trans (by decide), h.2.1.trans (by decide),
    h.2.2.1.trans (by decide)⟩

/-- C9: when the full calculation succeeds it writes exactly the three
output fields; every other field of the state — all raw inputs, both
bearing-derived field groups and the cycloidal-disc inner diameter —
keeps its prior value. -/
theorem calculate_frame (s : GuiState) (p : ParsedInputs)
    (hp : parse_all_inputs s = some p) :
    (calculate_cycloidal_params s).shaft_diameter_var
        = s.shaft_diameter_var ∧
    (calculate_cycloidal_params s).entry_num_drive_rollers
        = s.entry_num_drive_rollers ∧
    (calculate_cycloidal_params s).entry_drive_roller_diameter
        = s.entry_drive_roller_diameter ∧
    (calculate_cycloidal_params s).entry_drive_roller_base_thickness
        = s.entry_drive_roller_base_thickness ∧
    (calculate_cycloidal_params s).roller_base_diameter_var
        = s.roller_base_diameter_var ∧
    (calculate_cycloidal_params s).entry_ring_pin_diameter
        = s.entry_ring_pin_diameter ∧
    (calculate_cycloidal_params s).entry_cycloidal_pin_diameter
        = s.entry_cycloidal_pin_diameter ∧
    (calculate_cycloidal_params s).entry_cycloidal_pin_height
        = s.entry_cycloidal_pin_height ∧
    (calculate_cycloidal_params s).entry_tolerance = s.entry_tolerance ∧
    (calculate_cycloidal_params s).entry_cycloidal_disc_thickness
        = s.entry_cycloidal_disc_thickness ∧
    (calculate_cycloidal_params s).bearing_thickness_var
        = s.bearing_thickness_var ∧
    (calculate_cycloidal_params s).bearing_od_var = s.bearing_od_var ∧
    (calculate_cycloidal_params s).part_number_shaft_var
        = s.part_number_shaft_var ∧
    (calculate_cycloidal_params s).roller_base_bearing_thickness_var
        = s.roller_base_bearing_thickness_var ∧
    (calculate_cycloidal_params s).roller_base_bearing_od_var
        = s.roller_base_bearing_od_var ∧
    (calculate_cycloidal_params s).part_number_roller_base_var
        = s.part_number_roller_base_var ∧
    (calculate_cycloidal_params s).cycloidal_disc_id_var
        = s.cycloidal_disc_id_var := by
  simp [calculate_cycloidal_params, hp]

/-- Witness for C9: applying the frame property to the concrete state
whose eleven inputs all parse. -/
theorem calculate_frame_witness :
    (calculate_cycloidal_params goodState).shaft_diameter_var
        = goodState.shaft_diameter_var ∧
    (calculate_cycloidal_params goodState).entry_num_drive_rollers
        = goodState.entry_num_drive_rollers ∧
    (calculate_cycloidal_params goodState).entry_drive_roller_diameter
        = goodState.entry_drive_roller_diameter ∧
    (calculate_cycloidal_params goodState).entry_drive_roller_base_thickness
        = goodState.entry_drive_roller_base_thickness ∧
    (calculate_cycloidal_params goodState).roller_base_diameter_var
        = goodState.roller_base_diameter_var ∧
    (calculate_cycloidal_params goodState).entry_ring_pin_diameter
        = goodState.entry_ring_pin_diameter ∧
    (calculate_cycloidal_params goodState).entry_cycloidal_pin_diameter
        = goodState.entry_cycloidal_pin_diameter ∧
    (calculate_cycloidal_params goodState).entry_cycloidal_pin_height
        = goodState.entry_cycloidal_pin_height ∧
    (calculate_cycloidal_params goodState).entry_tolerance
        = goodState.entry_tolerance ∧
    (calculate_cycloidal_params goodState).entry_cycloidal_disc_thickness
        = goodState.entry_cycloidal_disc_thickness ∧
    (calculate_cycloidal_params goodState).bearing_thickness_var
        = goodState.bearing_thickness_var ∧
    (calculate_cycloidal_params goodState).bearing_od_var
        = goodState.bearing_od_var ∧
    (calculate_cycloidal_params goodState).part_number_shaft_var
        = goodState.part_number_shaft_var ∧
    (calculate_cycloidal_params goodState).roller_base_bearing_thickness_var
        = goodState.roller_base_bearing_thickness_var ∧
    (calculate_cycloidal_params goodState).roller_base_bearing_od_var
        = goodState.roller_base_bearing_od_var ∧
    (calculate_cycloidal_params goodState).part_number_roller_base_var
        = goodState.part_number_roller_base_var ∧
    (calculate_cycloidal_params goodState).cycloidal_disc_id_var
        = goodState.cycloidal_disc_id_var :=
  calculate_frame goodState goodParsed (by decide)

/-- C6: the four dead inputs (drive-roller count, drive-roller base
thickness, cycloidal-pin height, cycloidal-disc thickness) must parse but
feed no formula: two successful runs agreeing on the other seven required
fields produce identical values for all three computed outputs. -/
theorem dead_inputs_no_influence (s1 s2 : GuiState)
    (p1 p2 : ParsedInputs)
    (h1 : parse_all_inputs s1 = some p1)
    (h2 : parse_all_inputs s2 = some p2)
    (hshaft : s1.shaft_diameter_var = s2.shaft_diameter_var)
    (hdrd : s1.entry_drive_roller_diameter = s2.entry_drive_roller_diameter)
    (hrbd : s1.roller_base_diameter_var = s2.roller_base_diameter_var)
    (hrpd : s1.entry_ring_pin_diameter = s2.entry_ring_pin_diameter)
    (hcpd : s1.entry_cycloidal_pin_diameter
      = s2.entry_cycloidal_pin_diameter)
    (htol : s1.entry_tolerance = s2.entry_tolerance)
    (hdid : s1.cycloidal_disc_id_var = s2.cycloidal_disc_id_var) :
    (calculate_cycloidal_params s1).hole_drive_roller_var
        = (calculate_cycloidal_params s2).hole_drive_roller_var ∧
    (calculate_cycloidal_params s1).hole_cycloidal_pin_var
        = (calculate_cycloidal_params s2).hole_cycloidal_pin_var ∧
    (calculate_cycloidal_params s1).eccentricity_var
        = (calculate_cycloidal_params s2).eccentricity_var := by
  obtain ⟨_, _, e3, _, _, e6, e7, _, e9, _, _⟩ := parse_all_inputs_fields h1
  obtain ⟨_, _, f3, _, _, f6, f7, _, f9, _, _⟩ := parse_all_inputs_fields h2
  rw [hdrd, f3] at e3
  rw [hrpd, f6] at e6
  rw [hcpd, f7] at e7
  rw [htol, f9] at e9
  have hd := Option.some.inj e3
  have hr := Option.some.inj e6
  have hc := Option.some.inj e7
  have ht := Option.some.inj e9
  simp [calculate_cycloidal_params, h1, h2, hd, hr, hc, ht]

/-- Witness for C6: changing only the four dead inputs between two
concrete successful runs leaves all three computed outputs identical. -/
theorem dead_inputs_no_influence_witness :
    (calculate_cycloidal_params goodState).hole_drive_roller_var
        = (calculate_cycloidal_params deadVariantState).hole_drive_roller_var ∧
    (calculate_cycloidal_params goodState).hole_cycloidal_pin_var
        = (calculate_cycloidal_params deadVariantState).hole_cycloidal_pin_var ∧
    (calculate_cycloidal_params goodState).eccentricity_var
        = (calculate_cycloidal_params deadVariantState).eccentricity_var :=
  dead_inputs_no_influence goodState deadVariantState goodParsed
    deadVariantParsed (by decide) (by decide) rfl rfl rfl rfl rfl rfl rfl

/-- C10: beyond the four dead inputs, the calculation also never consumes
the shaft diameter, the roller-base diameter or the cycloidal-disc inner
diameter: two successful runs agreeing merely on drive-roller diameter,
cycloidal-pin diameter, ring-pin diameter and tolerance produce identical
values for all three computed outputs. -/
theorem outputs_depend_only_on_four_inputs (s1 s2 : GuiState)
    (p1 p2 : ParsedInputs)
    (h1 : parse_all_inputs s1 = some p1)
    (h2 : parse_all_inputs s2 = some p2)
    (hdrd : s1.entry_drive_roller_diameter = s2.entry_drive_roller_diameter)
    (hrpd : s1.entry_ring_pin_diameter = s2.entry_ring_pin_diameter)
    (hcpd : s1.entry_cycloidal_pin_diameter
      = s2.entry_cycloidal_pin_diameter)
    (htol : s1.entry_tolerance = s2.entry_tolerance) :
    (calculate_cycloidal_params s1).hole_drive_roller_var
        = (calculate_cycloidal_params s2).hole_drive_roller_var ∧
    (calculate_cycloidal_params s1).hole_cycloidal_pin_var
        = (calculate_cycloidal_params s2).hole_cycloidal_pin_var ∧
    (calculate_cycloidal_params s1).eccentricity_var
        = (calculate_cycloidal_params s2).eccentricity_var := by
  obtain ⟨_, _, e3, _, _, e6, e7, _, e9, _, _⟩ := parse_all_inputs_fields h1
  obtain ⟨_, _, f3, _, _, f6, f7, _, f9, _, _⟩ := parse_all_inputs_fields h2
  rw [hdrd, f3] at e3
  rw [hrpd, f6] at e6
  rw [hcpd, f7] at e7
  rw [htol, f9] at e9
  have hd := Option.some.inj e3
  have hr := Option.some.inj e6
  have hc := Option.some.inj e7
  have ht := Option.some.inj e9
  simp [calculate_cycloidal_params, h1, h2, hd, hr, hc, ht]

/-- Witness for C10: changing every required input except the four the
formulas consume leaves all three computed outputs identical between two
concrete successful runs. -/
theorem outputs_depend_only_on_four_inputs_witness :
    (calculate_cycloidal_params goodState).hole_drive_roller_var
        = (calculate_cycloidal_params unusedVariantState).hole_drive_roller_var ∧
    (calculate_cycloidal_params goodState).hole_cycloidal_pin_var
        = (calculate_cycloidal_params unusedVariantState).hole_cycloidal_pin_var ∧
    (calculate_cycloidal_params goodState).eccentricity_var
        = (calculate_cycloidal_params unusedVariantState).eccentricity_var :=
  outputs_depend_only_on_four_inputs goodState unusedVariantState goodParsed
    unusedVariantParsed (by decide) (by decide) rfl rfl rfl rfl

end Cycloid
